import Mathlib

/-!
Verification of the freelance-designer booking backend
(`src/main.py`, `src/schemas.py`) against its specification.

The HTTP handlers of `main.py` are embedded as pure Lean functions over an
explicit document-store state.  The document-store gateway
(`database.create_document` / `database.get_documents`) is imported by
`main.py` from `database.py`, a repository file not present under `src/`;
those two primitives are modelled from the spec (section 4.1) and marked as
such in their doc comments.  Everything else is translated directly from the
Python source.
-/

namespace Booking

/-! ## Python string primitives -/

/-- Python `str.lower()` applied character-wise, returning the character
list of the lowered string (embedding of `s.lower()`). -/
def pyLower (s : String) : List Char := s.data.map Char.toLower

/-- Python substring containment `needle in hay` on character lists:
`needle` occurs contiguously somewhere in `hay` (the empty needle always
occurs). -/
def pyContains (hay needle : List Char) : Bool :=
  (List.range (hay.length + 1)).any fun i => needle.isPrefixOf (hay.drop i)

/-- Python truthiness of an optional string parameter: `None` and the empty
string are falsy (embedding of `if param:` in the list handlers). -/
def pyTruthy : Option String → Bool
  | none => false
  | some s => !s.isEmpty

/-! ## BSON ObjectId -/

/-- Is `c` a hexadecimal digit (`0-9`, `a-f`, `A-F`)? -/
def isHexChar (c : Char) : Bool :=
  (48 ≤ c.toNat && c.toNat ≤ 57) ||
  (97 ≤ c.toNat && c.toNat ≤ 102) ||
  (65 ≤ c.toNat && c.toNat ≤ 70)

/-- Numeric value of a hexadecimal digit. -/
def hexVal (c : Char) : Nat :=
  if c.toNat ≤ 57 then c.toNat - 48
  else if c.toNat ≤ 70 then c.toNat - 55
  else c.toNat - 87

/-- Hexadecimal digit character for `n < 16` (lower-case letters, as in the
string form of a BSON ObjectId). -/
def hexChar (n : Nat) : Char :=
  if n < 10 then Char.ofNat (48 + n) else Char.ofNat (87 + n)

/-- `bson.ObjectId(s)` on a string argument: succeeds exactly on 24-character
hexadecimal strings, yielding the identifier's numeric value.  `none` models
the `InvalidId` exception caught by the handlers. -/
def parseObjectId (s : String) : Option Nat :=
  if s.length == 24 && s.data.all isHexChar then
    some (s.data.foldl (fun acc c => acc * 16 + hexVal c) 0)
  else none

/-- String form of a store-generated identifier: 24 lower-case hexadecimal
characters (big-endian, zero-padded), as `str(ObjectId)` produces. -/
def idToString (n : Nat) : String :=
  ⟨(List.range 24).map fun i => hexChar (n / 16 ^ (23 - i) % 16)⟩

/-! ## Entity schemas (from `src/schemas.py`) -/

/-- `Advertisement.ad_type`: `Literal['business','freelancer']`. -/
inductive AdType where
  | business
  | freelancer
deriving DecidableEq, Repr

/-- `Reservation.status`: `Literal['pending','confirmed','cancelled']`,
default `'pending'`. -/
inductive ResStatus where
  | pending
  | confirmed
  | cancelled
deriving DecidableEq, Repr

/-- `ForumThread.author_type`: `Literal['business','freelancer','guest']`,
default `'guest'`. -/
inductive AuthorType where
  | business
  | freelancer
  | guest
deriving DecidableEq, Repr

/-- `datetime` values, modelled as integers; the handlers only ever compare
them. -/
abbrev Time := Int

/-- `schemas.Freelancer`.  URL-typed fields are carried as strings; the
freeform availability dicts as association lists. -/
structure Freelancer where
  name : String
  email : String
  skills : List String
  bio : Option String
  avatar_url : Option String
  hourly_rate : Option Rat
  portfolio_links : List String
  availability : List (List (String × String))
deriving DecidableEq, Repr

/-- `schemas.PortfolioItem`. -/
structure PortfolioItem where
  freelancer_id : String
  title : String
  description : Option String
  project_url : Option String
  image_url : Option String
  tags : List String
deriving DecidableEq, Repr

/-- `schemas.Reservation`. -/
structure Reservation where
  business_name : String
  business_email : String
  freelancer_id : String
  start_time : Time
  end_time : Time
  notes : Option String
  status : ResStatus
deriving DecidableEq, Repr

/-- `schemas.Advertisement`. -/
structure Advertisement where
  ad_type : AdType
  heading : String
  content : String
  designers : List String
  business_name : Option String
  freelancer_id : Option String
deriving DecidableEq, Repr

/-- `schemas.ForumThread`. -/
structure ForumThread where
  title : String
  content : String
  author_type : AuthorType
  author_name : String
  tags : List String
deriving DecidableEq, Repr

/-- `schemas.ForumPost`. -/
structure ForumPost where
  thread_id : String
  content : String
  author_name : String
deriving DecidableEq, Repr

/-! ## Document store -/

/-- A persisted document: the validated record plus its store-generated
identifier. -/
structure StoredDoc (α : Type) where
  oid : Nat
  data : α
deriving DecidableEq, Repr

/-- The document store: one collection per entity (collection names are the
lowercased class names) plus the generator state for fresh identifiers. -/
structure Store where
  freelancer : List (StoredDoc Freelancer)
  portfolioitem : List (StoredDoc PortfolioItem)
  reservation : List (StoredDoc Reservation)
  advertisement : List (StoredDoc Advertisement)
  forumthread : List (StoredDoc ForumThread)
  forumpost : List (StoredDoc ForumPost)
  nextId : Nat
deriving DecidableEq, Repr

/-- The empty store. -/
def Store.empty : Store := ⟨[], [], [], [], [], [], 0⟩

/-- Modelled from the spec: `database.create_document(collection, model)`
(`database.py` is not under `src/`).  Per section 4.1, it serializes the
validated record into a new document of the collection, the store generates
a fresh opaque identifier, and the identifier is returned as a string.
Documents keep insertion order. -/
def create_document {α : Type} (coll : List (StoredDoc α)) (payload : α)
    (nextId : Nat) : String × List (StoredDoc α) × Nat :=
  (idToString nextId, coll ++ [⟨nextId, payload⟩], nextId + 1)

/-- Modelled from the spec: `database.get_documents(collection, filter,
limit)` (`database.py` is not under `src/`).  Per section 4.1, it returns
the documents matching the filter in store-native (insertion) order;
`limit = unbounded` (`None`) returns all matches and a numeric limit caps
the result count. -/
def get_documents {α : Type} (coll : List (StoredDoc α))
    (pred : StoredDoc α → Bool) (limit : Option Nat) : List (StoredDoc α) :=
  match limit with
  | none => coll.filter pred
  | some k => (coll.filter pred).take k

/-- `find_one(filter)`: the first document matching the filter, if any. -/
def find_one {α : Type} (coll : List (StoredDoc α))
    (pred : StoredDoc α → Bool) : Option (StoredDoc α) :=
  coll.find? pred

/-! ## Responses -/

/-- An `HTTPException` raised by a handler: status code and detail message. -/
structure Err where
  status : Nat
  detail : String
deriving DecidableEq, Repr

/-- A document as returned by a list endpoint: the record together with its
identifier converted to a string under the key `_id`
(`d["_id"] = str(d.get("_id"))`). -/
structure Listed (α : Type) where
  mongoId : String
  data : α
deriving DecidableEq, Repr

/-- Render a stored document for a list response. -/
def render {α : Type} (d : StoredDoc α) : Listed α := ⟨idToString d.oid, d.data⟩

/-! ## Handlers (from `src/main.py`)

Create handlers return the `{id}` response (or the raised `HTTPException`)
together with the resulting store; list handlers return the `{items}`
response in the same error monad (none of them ever raises). -/

/-- `POST /freelancers` (`create_freelancer`): inserts unconditionally. -/
def create_freelancer (payload : Freelancer) (s : Store) :
    Except Err String × Store :=
  let (inserted_id, coll, nid) := create_document s.freelancer payload s.nextId
  (.ok inserted_id, { s with freelancer := coll, nextId := nid })

/-- The filter of `list_freelancers`: the `{"skills": {"$regex": skill,
"$options": "i"}}` document built when `skill` is truthy, otherwise `{}`.
Matching a regex filter against a list field is modelled from the spec's
filter semantics (case-insensitive substring against any element) since
`get_documents` lives in the absent `database.py`. -/
def skillFilter (skill : Option String) (d : StoredDoc Freelancer) : Bool :=
  if pyTruthy skill then
    d.data.skills.any fun el => pyContains (pyLower el) (pyLower (skill.getD ""))
  else true

/-- `GET /freelancers` (`list_freelancers`): no cap. -/
def list_freelancers (skill : Option String) (s : Store) :
    Except Err (List (Listed Freelancer)) :=
  .ok ((get_documents s.freelancer (skillFilter skill) none).map render)

/-- `POST /portfolio` (`add_portfolio`): 400 if `freelancer_id` is not a
valid ObjectId, 404 if no such freelancer exists, else insert. -/
def add_portfolio (item : PortfolioItem) (s : Store) :
    Except Err String × Store :=
  match parseObjectId item.freelancer_id with
  | none => (.error ⟨400, "Invalid freelancer_id"⟩, s)
  | some oid =>
    match find_one s.freelancer (fun d => d.oid == oid) with
    | none => (.error ⟨404, "Freelancer not found"⟩, s)
    | some _ =>
      let (inserted_id, coll, nid) := create_document s.portfolioitem item s.nextId
      (.ok inserted_id, { s with portfolioitem := coll, nextId := nid })

/-- The filter of `list_portfolio`: exact-match `freelancer_id` when the
parameter is truthy, otherwise `{}`. -/
def portfolioFilter (freelancer_id : Option String)
    (d : StoredDoc PortfolioItem) : Bool :=
  if pyTruthy freelancer_id then
    d.data.freelancer_id == freelancer_id.getD ""
  else true

/-- `GET /portfolio` (`list_portfolio`): no cap. -/
def list_portfolio (freelancer_id : Option String) (s : Store) :
    Except Err (List (Listed PortfolioItem)) :=
  .ok ((get_documents s.portfolioitem (portfolioFilter freelancer_id) none).map render)

/-- The Mongo overlap filter of `create_reservation`:
`existing.freelancer_id == new.freelancer_id` and
`existing.start_time < new.end_time` and
`existing.end_time > new.start_time`. -/
def overlapPred (res : Reservation) (d : StoredDoc Reservation) : Bool :=
  d.data.freelancer_id == res.freelancer_id &&
  decide (d.data.start_time < res.end_time) &&
  decide (d.data.end_time > res.start_time)

/-- `POST /reservations` (`create_reservation`): 400 on invalid
`freelancer_id`, 404 if the freelancer is absent, 409 if any existing
reservation of the same freelancer (any status) overlaps in the half-open
sense, else insert. -/
def create_reservation (res : Reservation) (s : Store) :
    Except Err String × Store :=
  match parseObjectId res.freelancer_id with
  | none => (.error ⟨400, "Invalid freelancer_id"⟩, s)
  | some oid =>
    match find_one s.freelancer (fun d => d.oid == oid) with
    | none => (.error ⟨404, "Freelancer not found"⟩, s)
    | some _ =>
      match find_one s.reservation (overlapPred res) with
      | some _ =>
        (.error ⟨409, "Reservation overlaps with an existing booking"⟩, s)
      | none =>
        let (inserted_id, coll, nid) := create_document s.reservation res s.nextId
        (.ok inserted_id, { s with reservation := coll, nextId := nid })

/-- The filter of `list_reservations`: exact-match clauses for each truthy
parameter (`freelancer_id`, `business_email`). -/
def reservationFilter (freelancer_id business_email : Option String)
    (d : StoredDoc Reservation) : Bool :=
  (if pyTruthy freelancer_id then
    d.data.freelancer_id == freelancer_id.getD ""
  else true) &&
  (if pyTruthy business_email then
    d.data.business_email == business_email.getD ""
  else true)

/-- `GET /reservations` (`list_reservations`): no cap. -/
def list_reservations (freelancer_id business_email : Option String)
    (s : Store) : Except Err (List (Listed Reservation)) :=
  .ok ((get_documents s.reservation
    (reservationFilter freelancer_id business_email) none).map render)

/-- The designers of `ad` whose lowered name is not a substring of the
lowered heading (`[n for n in ad.designers if n.lower() not in heading_lower]`). -/
def missingDesigners (ad : Advertisement) : List String :=
  ad.designers.filter fun n => !(pyContains (pyLower ad.heading) (pyLower n))

/-- `POST /ads` (`create_ad`): for business ads, 400 if `designers` is
empty, 400 naming the missing designers if some name is not a
case-insensitive substring of `heading`; otherwise (and always for
freelancer ads) insert. -/
def create_ad (ad : Advertisement) (s : Store) : Except Err String × Store :=
  if ad.ad_type = AdType.business ∧ ad.designers.isEmpty then
    (.error ⟨400, "Business ads must include designers responsible"⟩, s)
  else if ad.ad_type = AdType.business ∧ ¬ (missingDesigners ad).isEmpty then
    (.error ⟨400, "Heading must include designers: " ++
      String.intercalate ", " (missingDesigners ad)⟩, s)
  else
    let (inserted_id, coll, nid) := create_document s.advertisement ad s.nextId
    (.ok inserted_id, { s with advertisement := coll, nextId := nid })

/-- The string form of `Advertisement.ad_type`, for the exact-match
`ad_type` filter. -/
def AdType.toString : AdType → String
  | .business => "business"
  | .freelancer => "freelancer"

/-- The filter of `list_ads`: exact-match `ad_type` when truthy. -/
def adFilter (ad_type : Option String) (d : StoredDoc Advertisement) : Bool :=
  if pyTruthy ad_type then
    d.data.ad_type.toString == ad_type.getD ""
  else true

/-- `GET /ads` (`list_ads`): capped at 50 documents. -/
def list_ads (ad_type : Option String) (s : Store) :
    Except Err (List (Listed Advertisement)) :=
  .ok ((get_documents s.advertisement (adFilter ad_type) (some 50)).map render)

/-- `POST /forum/threads` (`create_thread`): inserts unconditionally. -/
def create_thread (thread : ForumThread) (s : Store) :
    Except Err String × Store :=
  let (inserted_id, coll, nid) := create_document s.forumthread thread s.nextId
  (.ok inserted_id, { s with forumthread := coll, nextId := nid })

/-- The filter of `list_threads`: the `{"tags": {"$regex": tag,
"$options": "i"}}` document when `tag` is truthy (case-insensitive
substring against any element, as for `skillFilter`), otherwise `{}`. -/
def tagFilter (tag : Option String) (d : StoredDoc ForumThread) : Bool :=
  if pyTruthy tag then
    d.data.tags.any fun el => pyContains (pyLower el) (pyLower (tag.getD ""))
  else true

/-- `GET /forum/threads` (`list_threads`): capped at 50 documents. -/
def list_threads (tag : Option String) (s : Store) :
    Except Err (List (Listed ForumThread)) :=
  .ok ((get_documents s.forumthread (tagFilter tag) (some 50)).map render)

/-- `POST /forum/posts` (`create_post`): 400 if `thread_id` is not a valid
ObjectId, 404 if no such thread exists, else insert. -/
def create_post (post : ForumPost) (s : Store) : Except Err String × Store :=
  match parseObjectId post.thread_id with
  | none => (.error ⟨400, "Invalid thread_id"⟩, s)
  | some oid =>
    match find_one s.forumthread (fun d => d.oid == oid) with
    | none => (.error ⟨404, "Thread not found"⟩, s)
    | some _ =>
      let (inserted_id, coll, nid) := create_document s.forumpost post s.nextId
      (.ok inserted_id, { s with forumpost := coll, nextId := nid })

/-- `GET /forum/posts` (`list_posts`): the required `thread_id` parameter is
used as an exact-match filter with no validation, capped at 200 documents. -/
def list_posts (thread_id : String) (s : Store) :
    Except Err (List (Listed ForumPost)) :=
  .ok ((get_documents s.forumpost
    (fun d => d.data.thread_id == thread_id) (some 200)).map render)

end Booking

deriving instance DecidableEq for Except

namespace Booking

/-! ## Concrete fixtures used by witnesses and counterexamples -/

/-- The string form of identifier 0 (24 zeros): a valid ObjectId. -/
def fid0 : String := idToString 0

/-- A freelancer document payload. -/
def flAna : Freelancer := ⟨"Ana", "ana@example.com", ["UX Design"], none, none, none, [], []⟩

/-- A reservation for `flAna` over `[0, 5)`. -/
def resA : Reservation := ⟨"Biz", "biz@example.com", fid0, 0, 5, none, .pending⟩

/-- A reservation request for `flAna` over `[5, 10)`, touching `resA` at 5. -/
def resB : Reservation := ⟨"Biz", "biz@example.com", fid0, 5, 10, none, .pending⟩

/-- A store holding `flAna` (id 0) and the stored reservation `resA` (id 1). -/
def st1 : Store := ⟨[⟨0, flAna⟩], [], [⟨1, resA⟩], [], [], [], 2⟩

/-! ## Claims -/

/-- C1. With a resolvable `freelancer_id`, reservation creation returns the
409 conflict iff some existing reservation of the same freelancer
(regardless of status) satisfies
`existing.start_time < new.end_time ∧ existing.end_time > new.start_time`;
intervals that merely touch at an endpoint fail this condition, so both are
accepted. -/
theorem reservation_conflict_iff_overlap (res : Reservation) (s : Store)
    (oid : Nat) (hid : parseObjectId res.freelancer_id = some oid)
    (hex : ∃ d ∈ s.freelancer, d.oid = oid) :
    (create_reservation res s).1 =
        .error ⟨409, "Reservation overlaps with an existing booking"⟩ ↔
      ∃ d ∈ s.reservation, d.data.freelancer_id = res.freelancer_id ∧
        d.data.start_time < res.end_time ∧ d.data.end_time > res.start_time := by
  obtain ⟨df, hdf, hoid⟩ := hex
  cases hf : find_one s.freelancer (fun d => d.oid == oid) with
  | none =>
    exfalso
    rw [find_one, List.find?_eq_none] at hf
    exact hf df hdf (by simp [hoid])
  | some _ =>
    cases ho : find_one s.reservation (overlapPred res) with
    | none =>
      have hno : ∀ d ∈ s.reservation, ¬ overlapPred res d = true := by
        rw [find_one, List.find?_eq_none] at ho
        exact ho
      simp only [create_reservation, hid, hf, ho]
      constructor
      · intro h; simp at h
      · rintro ⟨d, hd, h1, h2, h3⟩
        exact absurd (by simp [overlapPred, h1, h2, h3]) (hno d hd)
    | some d =>
      have hpd := List.find?_some ho
      have hmd := List.mem_of_find?_eq_some ho
      simp only [overlapPred, Bool.and_eq_true, beq_iff_eq,
        decide_eq_true_eq] at hpd
      simp only [create_reservation, hid, hf, ho]
      exact iff_of_true trivial ⟨d, hmd, hpd.1.1, hpd.1.2, hpd.2⟩

/-- Witness for C1: in a store holding freelancer `flAna` and a reservation
over `[0,5)`, a request over `[5,10)` — touching at the endpoint — is not
rejected with 409. -/
theorem reservation_conflict_iff_overlap_witness :
    (create_reservation resB st1).1 ≠
      .error ⟨409, "Reservation overlaps with an existing booking"⟩ := by
  have h := reservation_conflict_iff_overlap resB st1 0 (by decide)
    ⟨⟨0, flAna⟩, by decide⟩
  intro hc
  exact absurd (h.mp hc) (by decide)

/-- C2. Business-ad creation succeeds iff `designers` is non-empty and every
designer name occurs case-insensitively in `heading`; when names are
missing, the 400 error lists exactly the missing names in order; freelancer
ads are never subject to the check. -/
theorem business_ad_designers_rule (ad : Advertisement) (s : Store) :
    ((∃ r, (create_ad ad s).1 = .ok r) ↔
        (ad.ad_type = AdType.business →
          ad.designers ≠ [] ∧
          ∀ n ∈ ad.designers,
            pyContains (pyLower ad.heading) (pyLower n) = true))
      ∧ (ad.ad_type = AdType.business → ad.designers ≠ [] →
          missingDesigners ad ≠ [] →
          (create_ad ad s).1 = .error ⟨400, "Heading must include designers: " ++
            String.intercalate ", " (missingDesigners ad)⟩)
      ∧ (ad.ad_type = AdType.freelancer →
          (create_ad ad s).1 = .ok (idToString s.nextId)) := by
  have hmiss : missingDesigners ad = [] ↔
      ∀ n ∈ ad.designers, pyContains (pyLower ad.heading) (pyLower n) = true := by
    simp [missingDesigners, List.filter_eq_nil_iff]
  cases had : ad.ad_type with
  | business =>
    refine ⟨?_, ?_, fun hfl => absurd hfl (by decide)⟩
    · by_cases hd : ad.designers = []
      · simp [create_ad, had, hd]
      · by_cases hm : missingDesigners ad = []
        · have hall := hmiss.mp hm
          exact iff_of_true
            ⟨idToString s.nextId, by
              simp [create_ad, had, hd, hm, List.isEmpty_iff, create_document]⟩
            (fun _ => ⟨hd, hall⟩)
        · constructor
          · intro ⟨r, hr⟩
            simp [create_ad, had, hd, hm, List.isEmpty_iff] at hr
          · intro h
            exact absurd (hmiss.mpr ((h rfl).2)) hm
    · intro _ hdne hmne
      simp [create_ad, had, hdne, hmne, List.isEmpty_iff]
  | freelancer =>
    refine ⟨?_, fun hb => absurd hb (by decide), ?_⟩
    · simp [create_ad, had, create_document]
    · intro _
      simp [create_ad, had, create_document]

/-- Witness for C2: a business ad with heading containing the sole designer
name case-insensitively succeeds; one missing the name is rejected listing
it; a freelancer ad with no designers succeeds. -/
theorem business_ad_designers_rule_witness :
    ((∃ r, (create_ad ⟨.business, "Ana's new page", "c", ["Ana"], none, none⟩
        Store.empty).1 = .ok r)
      ∧ (create_ad ⟨.business, "A new page", "c", ["Ana"], none, none⟩
          Store.empty).1 = .error ⟨400, "Heading must include designers: Ana"⟩
      ∧ (create_ad ⟨.freelancer, "h", "c", [], none, none⟩ Store.empty).1 =
          .ok (idToString 0)) := by
  refine ⟨?_, ?_, ?_⟩
  · exact (business_ad_designers_rule
      ⟨.business, "Ana's new page", "c", ["Ana"], none, none⟩ Store.empty).1.mpr
      (fun _ => ⟨by decide, by decide⟩)
  · exact (business_ad_designers_rule
      ⟨.business, "A new page", "c", ["Ana"], none, none⟩ Store.empty).2.1
      rfl (by decide) (by decide)
  · exact (business_ad_designers_rule
      ⟨.freelancer, "h", "c", [], none, none⟩ Store.empty).2.2 rfl

/-- A portfolio item referencing the stored freelancer of `st1`. -/
def itemGood : PortfolioItem := ⟨fid0, "Logo", none, none, none, []⟩

/-- A portfolio item with a malformed `freelancer_id`. -/
def itemBad : PortfolioItem := ⟨"nope", "Logo", none, none, none, []⟩

/-- A forum post whose `thread_id` is well-formed but names no thread. -/
def postAbsent : ForumPost := ⟨idToString 7, "hello", "bob"⟩

/-- C3. For portfolio-item, reservation and forum-post creation: the request
fails 400 iff the referenced id does not parse as an ObjectId, fails 404 iff
it parses but no document with that identifier exists in the referenced
collection, and proceeds (insert, or the overlap check for reservations)
when the reference resolves. -/
theorem referential_checks (item : PortfolioItem) (res : Reservation)
    (post : ForumPost) (s : Store) :
    (((add_portfolio item s).1 = .error ⟨400, "Invalid freelancer_id"⟩ ↔
        parseObjectId item.freelancer_id = none)
      ∧ ((add_portfolio item s).1 = .error ⟨404, "Freelancer not found"⟩ ↔
          ∃ oid, parseObjectId item.freelancer_id = some oid ∧
            ∀ d ∈ s.freelancer, d.oid ≠ oid)
      ∧ ((∃ oid, parseObjectId item.freelancer_id = some oid ∧
            ∃ d ∈ s.freelancer, d.oid = oid) →
          (add_portfolio item s).1 = .ok (idToString s.nextId)))
    ∧ (((create_reservation res s).1 = .error ⟨400, "Invalid freelancer_id"⟩ ↔
        parseObjectId res.freelancer_id = none)
      ∧ ((create_reservation res s).1 = .error ⟨404, "Freelancer not found"⟩ ↔
          ∃ oid, parseObjectId res.freelancer_id = some oid ∧
            ∀ d ∈ s.freelancer, d.oid ≠ oid)
      ∧ ((∃ oid, parseObjectId res.freelancer_id = some oid ∧
            ∃ d ∈ s.freelancer, d.oid = oid) →
          (create_reservation res s).1 = .ok (idToString s.nextId) ∨
          (create_reservation res s).1 =
            .error ⟨409, "Reservation overlaps with an existing booking"⟩))
    ∧ (((create_post post s).1 = .error ⟨400, "Invalid thread_id"⟩ ↔
        parseObjectId post.thread_id = none)
      ∧ ((create_post post s).1 = .error ⟨404, "Thread not found"⟩ ↔
          ∃ oid, parseObjectId post.thread_id = some oid ∧
            ∀ d ∈ s.forumthread, d.oid ≠ oid)
      ∧ ((∃ oid, parseObjectId post.thread_id = some oid ∧
            ∃ d ∈ s.forumthread, d.oid = oid) →
          (create_post post s).1 = .ok (idToString s.nextId))) := by
  refine ⟨?_, ?_, ?_⟩
  · cases hp : parseObjectId item.freelancer_id with
    | none =>
      refine ⟨by simp [add_portfolio, hp], by simp [add_portfolio, hp], ?_⟩
      rintro ⟨oid, hoid, -⟩
      simp at hoid
    | some oid =>
      cases hf : find_one s.freelancer (fun d => d.oid == oid) with
      | none =>
        have hall : ∀ x ∈ s.freelancer, x.oid ≠ oid := by
          rw [find_one, List.find?_eq_none] at hf
          intro x hx
          simpa using hf x hx
        refine ⟨by simp [add_portfolio, hp, hf],
          iff_of_true (by simp [add_portfolio, hp, hf]) ⟨oid, rfl, hall⟩, ?_⟩
        rintro ⟨oid', hoid', d, hd, hdo⟩
        injection hoid' with h
        subst h
        exact absurd hdo (hall d hd)
      | some df =>
        have hex : ∃ d ∈ s.freelancer, d.oid = oid :=
          ⟨df, List.mem_of_find?_eq_some hf, by simpa using List.find?_some hf⟩
        refine ⟨by simp [add_portfolio, hp, hf, create_document], ?_, ?_⟩
        · refine iff_of_false
            (by simp [add_portfolio, hp, hf, create_document]) ?_
          rintro ⟨oid', hoid', hall⟩
          injection hoid' with h
          subst h
          obtain ⟨d, hd, hdo⟩ := hex
          exact hall d hd hdo
        · intro _
          simp [add_portfolio, hp, hf, create_document]
  · cases hp : parseObjectId res.freelancer_id with
    | none =>
      refine ⟨by simp [create_reservation, hp],
        by simp [create_reservation, hp], ?_⟩
      rintro ⟨oid, hoid, -⟩
      simp at hoid
    | some oid =>
      cases hf : find_one s.freelancer (fun d => d.oid == oid) with
      | none =>
        have hall : ∀ x ∈ s.freelancer, x.oid ≠ oid := by
          rw [find_one, List.find?_eq_none] at hf
          intro x hx
          simpa using hf x hx
        refine ⟨by simp [create_reservation, hp, hf],
          iff_of_true (by simp [create_reservation, hp, hf]) ⟨oid, rfl, hall⟩, ?_⟩
        rintro ⟨oid', hoid', d, hd, hdo⟩
        injection hoid' with h
        subst h
        exact absurd hdo (hall d hd)
      | some df =>
        have hex : ∃ d ∈ s.freelancer, d.oid = oid :=
          ⟨df, List.mem_of_find?_eq_some hf, by simpa using List.find?_some hf⟩
        cases ho : find_one s.reservation (overlapPred res) with
        | none =>
          refine ⟨by simp [create_reservation, hp, hf, ho, create_document],
            ?_, ?_⟩
          · refine iff_of_false
              (by simp [create_reservation, hp, hf, ho, create_document]) ?_
            rintro ⟨oid', hoid', hall⟩
            injection hoid' with h
            subst h
            obtain ⟨d, hd, hdo⟩ := hex
            exact hall d hd hdo
          · intro _
            exact Or.inl
              (by simp [create_reservation, hp, hf, ho, create_document])
        | some d =>
          refine ⟨by simp [create_reservation, hp, hf, ho], ?_, ?_⟩
          · refine iff_of_false (by simp [create_reservation, hp, hf, ho]) ?_
            rintro ⟨oid', hoid', hall⟩
            injection hoid' with h
            subst h
            obtain ⟨d', hd', hdo'⟩ := hex
            exact hall d' hd' hdo'
          · intro _
            exact Or.inr (by simp [create_reservation, hp, hf, ho])
  · cases hp : parseObjectId post.thread_id with
    | none =>
      refine ⟨by simp [create_post, hp], by simp [create_post, hp], ?_⟩
      rintro ⟨oid, hoid, -⟩
      simp at hoid
    | some oid =>
      cases hf : find_one s.forumthread (fun d => d.oid == oid) with
      | none =>
        have hall : ∀ x ∈ s.forumthread, x.oid ≠ oid := by
          rw [find_one, List.find?_eq_none] at hf
          intro x hx
          simpa using hf x hx
        refine ⟨by simp [create_post, hp, hf],
          iff_of_true (by simp [create_post, hp, hf]) ⟨oid, rfl, hall⟩, ?_⟩
        rintro ⟨oid', hoid', d, hd, hdo⟩
        injection hoid' with h
        subst h
        exact absurd hdo (hall d hd)
      | some df =>
        have hex : ∃ d ∈ s.forumthread, d.oid = oid :=
          ⟨df, List.mem_of_find?_eq_some hf, by simpa using List.find?_some hf⟩
        refine ⟨by simp [create_post, hp, hf, create_document], ?_, ?_⟩
        · refine iff_of_false
            (by simp [create_post, hp, hf, create_document]) ?_
          rintro ⟨oid', hoid', hall⟩
          injection hoid' with h
          subst h
          obtain ⟨d, hd, hdo⟩ := hex
          exact hall d hd hdo
        · intro _
          simp [create_post, hp, hf, create_document]

/-- Witness for C3: against `st1` (freelancer id 0, no forum threads), a
portfolio item referencing id 0 is inserted, one with a malformed id gets
the 400, and a post naming the absent thread id 7 gets the 404. -/
theorem referential_checks_witness :
    (add_portfolio itemGood st1).1 = .ok (idToString st1.nextId)
    ∧ (add_portfolio itemBad st1).1 = .error ⟨400, "Invalid freelancer_id"⟩
    ∧ (create_post postAbsent st1).1 = .error ⟨404, "Thread not found"⟩ := by
  refine ⟨?_, ?_, ?_⟩
  · exact (referential_checks itemGood resB postAbsent st1).1.2.2
      ⟨0, by decide, ⟨0, flAna⟩, by decide⟩
  · exact (referential_checks itemBad resB postAbsent st1).1.1.mpr (by decide)
  · exact (referential_checks itemGood resB postAbsent st1).2.2.2.1.mpr
      ⟨7, by decide, by decide⟩

/-- C4. Every create handler that rejects a request (400/404/409) leaves the
store unchanged: all checks run before the single write. -/
theorem no_write_on_error (f : Freelancer) (item : PortfolioItem)
    (res : Reservation) (ad : Advertisement) (t : ForumThread)
    (post : ForumPost) (s : Store) (e : Err) :
    ((create_freelancer f s).1 = .error e → (create_freelancer f s).2 = s)
    ∧ ((add_portfolio item s).1 = .error e → (add_portfolio item s).2 = s)
    ∧ ((create_reservation res s).1 = .error e →
        (create_reservation res s).2 = s)
    ∧ ((create_ad ad s).1 = .error e → (create_ad ad s).2 = s)
    ∧ ((create_thread t s).1 = .error e → (create_thread t s).2 = s)
    ∧ ((create_post post s).1 = .error e → (create_post post s).2 = s) := by
  refine ⟨?_, ?_, ?_, ?_, ?_, ?_⟩
  · intro h
    simp [create_freelancer] at h
  · cases hp : parseObjectId item.freelancer_id with
    | none => intro _; simp [add_portfolio, hp]
    | some oid =>
      cases hf : find_one s.freelancer (fun d => d.oid == oid) with
      | none => intro _; simp [add_portfolio, hp, hf]
      | some _ => intro h; simp [add_portfolio, hp, hf] at h
  · cases hp : parseObjectId res.freelancer_id with
    | none => intro _; simp [create_reservation, hp]
    | some oid =>
      cases hf : find_one s.freelancer (fun d => d.oid == oid) with
      | none => intro _; simp [create_reservation, hp, hf]
      | some _ =>
        cases ho : find_one s.reservation (overlapPred res) with
        | none => intro h; simp [create_reservation, hp, hf, ho] at h
        | some _ => intro _; simp [create_reservation, hp, hf, ho]
  · by_cases h1 : ad.ad_type = AdType.business ∧ ad.designers.isEmpty
    · intro _
      simp only [create_ad]
      rw [if_pos h1]
    · by_cases h2 : ad.ad_type = AdType.business ∧
          ¬ (missingDesigners ad).isEmpty
      · intro _
        simp only [create_ad]
        rw [if_neg h1, if_pos h2]
      · intro h
        simp only [create_ad] at h
        rw [if_neg h1, if_neg h2] at h
        simp [create_document] at h
  · intro h
    simp [create_thread] at h
  · cases hp : parseObjectId post.thread_id with
    | none => intro _; simp [create_post, hp]
    | some oid =>
      cases hf : find_one s.forumthread (fun d => d.oid == oid) with
      | none => intro _; simp [create_post, hp, hf]
      | some _ => intro h; simp [create_post, hp, hf] at h

/-- Witness for C4: a business ad with no designers is rejected against the
empty store, and the store is unchanged. -/
theorem no_write_on_error_witness :
    (create_ad ⟨.business, "h", "c", [], none, none⟩ Store.empty).2 =
      Store.empty :=
  (no_write_on_error flAna itemGood resB
      ⟨.business, "h", "c", [], none, none⟩
      ⟨"t", "c", .guest, "a", []⟩ postAbsent Store.empty
      ⟨400, "Business ads must include designers responsible"⟩).2.2.2.1
    (by decide)

/-- A freelancer with an empty skills list. -/
def flNoSkills : Freelancer := ⟨"Bo", "bo@example.com", [], none, none, none, [], []⟩

/-- A store holding only `flNoSkills` (id 0). -/
def st5 : Store := ⟨[⟨0, flNoSkills⟩], [], [], [], [], [], 1⟩

/-- Counterexample to C5 as stated: with the empty query string, the handler
treats the parameter as absent and returns a freelancer whose skills list
has no element at all, hence none containing the query as a substring. -/
theorem skill_filter_c5_counterexample :
    list_freelancers (some "") st5 = .ok [⟨idToString 0, flNoSkills⟩]
    ∧ (flNoSkills.skills.any fun el =>
        pyContains (pyLower el) (pyLower "")) = false := ⟨rfl, rfl⟩

/-- C5 (amended: for every non-empty query string).  The freelancer listing
returns exactly the documents with a skills element containing the query
case-insensitively; the thread listing returns exactly the first 50 such
matches on tags (the cap of C6). -/
theorem skill_tag_filter_substring (q : String) (hq : q ≠ "") (s : Store) :
    list_freelancers (some q) s =
      .ok ((s.freelancer.filter (fun d => d.data.skills.any fun el =>
        pyContains (pyLower el) (pyLower q))).map render)
    ∧ list_threads (some q) s =
      .ok (((s.forumthread.filter (fun d => d.data.tags.any fun el =>
        pyContains (pyLower el) (pyLower q))).take 50).map render) := by
  have hqe : q.isEmpty = false := by
    rw [Bool.eq_false_iff]
    intro h
    exact hq ((String.isEmpty_iff q).mp h)
  have ht : pyTruthy (some q) = true := by
    simp [pyTruthy, hqe]
  constructor
  · simp only [list_freelancers, get_documents]
    rw [List.filter_congr (fun d _ => by simp [skillFilter, ht] :
      ∀ d ∈ s.freelancer, skillFilter (some q) d =
        (d.data.skills.any fun el => pyContains (pyLower el) (pyLower q)))]
  · simp only [list_threads, get_documents]
    rw [List.filter_congr (fun d _ => by simp [tagFilter, ht] :
      ∀ d ∈ s.forumthread, tagFilter (some q) d =
        (d.data.tags.any fun el => pyContains (pyLower el) (pyLower q)))]

/-- Witness for C5 (amended): the query "ux" matches the stored freelancer
whose skills are `["UX Design"]`. -/
theorem skill_tag_filter_substring_witness :
    list_freelancers (some "ux") st1 = .ok [⟨idToString 0, flAna⟩] := by
  rw [(skill_tag_filter_substring "ux" (by decide) st1).1]
  rfl

/-- C6. Ad and thread listings return at most 50 items and post listings at
most 200, for every store and filter; the freelancer, portfolio and
reservation listings return every matching document (no cap). -/
theorem listing_caps (sk adty tg fid be : Option String) (tid : String)
    (s : Store) :
    (∀ items, list_ads adty s = .ok items → items.length ≤ 50)
    ∧ (∀ items, list_threads tg s = .ok items → items.length ≤ 50)
    ∧ (∀ items, list_posts tid s = .ok items → items.length ≤ 200)
    ∧ (∀ d ∈ s.freelancer, skillFilter sk d = true →
        ∀ items, list_freelancers sk s = .ok items → render d ∈ items)
    ∧ (∀ d ∈ s.portfolioitem, portfolioFilter fid d = true →
        ∀ items, list_portfolio fid s = .ok items → render d ∈ items)
    ∧ (∀ d ∈ s.reservation, reservationFilter fid be d = true →
        ∀ items, list_reservations fid be s = .ok items → render d ∈ items) := by
  refine ⟨?_, ?_, ?_, ?_, ?_, ?_⟩
  · intro items h
    injection h with h
    subst h
    simp [get_documents]
  · intro items h
    injection h with h
    subst h
    simp [get_documents]
  · intro items h
    injection h with h
    subst h
    simp [get_documents, list_posts]
  · intro d hd hpred items h
    injection h with h
    subst h
    simp only [get_documents, List.mem_map]
    exact ⟨d, List.mem_filter.mpr ⟨hd, hpred⟩, rfl⟩
  · intro d hd hpred items h
    injection h with h
    subst h
    simp only [get_documents, List.mem_map]
    exact ⟨d, List.mem_filter.mpr ⟨hd, hpred⟩, rfl⟩
  · intro d hd hpred items h
    injection h with h
    subst h
    simp only [get_documents, List.mem_map]
    exact ⟨d, List.mem_filter.mpr ⟨hd, hpred⟩, rfl⟩

/-- Witness for C6: in `st1`, the unfiltered freelancer listing contains the
stored freelancer, and the ad listing of the empty store has at most 50
items. -/
theorem listing_caps_witness :
    render (⟨0, flAna⟩ : StoredDoc Freelancer) ∈ [⟨idToString 0, flAna⟩]
    ∧ ([] : List (Listed Advertisement)).length ≤ 50 := by
  have h := listing_caps none none none none none "" st1
  refine ⟨?_, ?_⟩
  · exact h.2.2.2.1 ⟨0, flAna⟩ (by decide) rfl [⟨idToString 0, flAna⟩] rfl
  · exact (listing_caps none none none none none "" Store.empty).1 [] rfl

/-- C9. The forum-post list endpoint never validates its `thread_id`: for
every string, including unparseable ones, it returns 200 with the matching
posts (no 400/404), unlike `create_post` on the same field. -/
theorem list_posts_never_errors (tid c a : String) (s : Store) :
    (∃ items, list_posts tid s = .ok items)
    ∧ list_posts tid s = .ok (((s.forumpost.filter
        (fun d => d.data.thread_id == tid)).take 200).map render)
    ∧ (parseObjectId tid = none →
        (create_post ⟨tid, c, a⟩ s).1 = .error ⟨400, "Invalid thread_id"⟩) := by
  refine ⟨⟨_, rfl⟩, rfl, ?_⟩
  intro hp
  simp [create_post, hp]

/-- Witness for C9: the malformed id "zz" still yields a 200 from the list
endpoint while the create endpoint rejects it with 400. -/
theorem list_posts_never_errors_witness :
    list_posts "zz" Store.empty = .ok []
    ∧ (create_post ⟨"zz", "hello", "ann"⟩ Store.empty).1 =
        .error ⟨400, "Invalid thread_id"⟩ := by
  have h := list_posts_never_errors "zz" "hello" "ann" Store.empty
  exact ⟨h.2.1, h.2.2 (by decide)⟩

/-- A store holding one forum post. -/
def st10 : Store := ⟨[], [], [], [], [⟨0, ⟨"t", "c", .guest, "ann", []⟩⟩],
  [⟨1, ⟨idToString 0, "hi", "ann"⟩⟩], 2⟩

/-- Counterexample to C10 as stated: on `GET /forum/posts` the required
`thread_id` parameter is used as an exact-match filter even when it is the
empty string, so a non-empty collection yields no items instead of all of
them. -/
theorem empty_param_c10_counterexample :
    list_posts "" st10 = .ok [] ∧ st10.forumpost ≠ [] := ⟨rfl, by decide⟩

/-- C10 (amended: every optional query parameter).  An empty-string value
for `skill`, `freelancer_id`, `business_email`, `ad_type` or `tag` is
treated as absent (same result as omitting it), and the uncapped listings
then return every document; the required `thread_id` of the post listing is
used as a filter value even when empty. -/
theorem empty_param_treated_as_absent (s : Store) :
    list_portfolio (some "") s = list_portfolio none s
    ∧ list_portfolio none s = .ok (s.portfolioitem.map render)
    ∧ list_reservations (some "") (some "") s = list_reservations none none s
    ∧ list_reservations none none s = .ok (s.reservation.map render)
    ∧ list_freelancers (some "") s = list_freelancers none s
    ∧ list_ads (some "") s = list_ads none s
    ∧ list_threads (some "") s = list_threads none s
    ∧ list_posts "" s = .ok (((s.forumpost.filter
        (fun d => d.data.thread_id == "")).take 200).map render) := by
  refine ⟨rfl, ?_, rfl, ?_, rfl, rfl, rfl, rfl⟩
  · have hp : portfolioFilter none = (fun _ => true) := rfl
    simp only [list_portfolio, get_documents, hp, List.filter_true]
  · have hp : reservationFilter none none = (fun _ => true) := rfl
    simp only [list_reservations, get_documents, hp, List.filter_true]

/-- A stored reservation whose interval is empty: `[5, 5)`. -/
def resDegenerate : Reservation := ⟨"Biz", "biz@example.com", fid0, 5, 5, none, .pending⟩

/-- A store holding `flAna` (id 0) and the empty-interval reservation. -/
def st8 : Store := ⟨[⟨0, flAna⟩], [], [⟨1, resDegenerate⟩], [], [], [], 2⟩

/-- A reservation request over `[4, 6)`, strictly containing the instant 5. -/
def resAround : Reservation := ⟨"Biz2", "b2@example.com", fid0, 4, 6, none, .pending⟩

/-- Counterexample to C8 as stated: the stored empty reservation `[5,5)`
does match a later request `[4,6)` (since `5 < 6` and `5 > 4`), which is
rejected with 409 — the overlap check is not blind to degenerate
reservations. -/
theorem degenerate_reservation_c8_counterexample :
    overlapPred resAround ⟨1, resDegenerate⟩ = true
    ∧ (create_reservation resAround st8).1 =
        .error ⟨409, "Reservation overlaps with an existing booking"⟩ :=
  ⟨rfl, rfl⟩

/-- C8 (amended).  The schema enforces no ordering between `start_time` and
`end_time`: a reservation with `end_time ≤ start_time` whose freelancer
exists and which matches no stored reservation is inserted; and a stored
reservation with `start_time = end_time = t` matches a later request
`[s2, e2)` iff `s2 < t ∧ t < e2` — so it never conflicts with requests
touching or avoiding `t`, but does conflict with intervals strictly
containing `t`. -/
theorem degenerate_reservation_behaviour (res stored : Reservation)
    (s : Store) (oid i : Nat)
    (hid : parseObjectId res.freelancer_id = some oid)
    (hex : ∃ d ∈ s.freelancer, d.oid = oid) :
    (res.end_time ≤ res.start_time →
      (∀ d ∈ s.reservation, overlapPred res d = false) →
      (create_reservation res s).1 = .ok (idToString s.nextId))
    ∧ (stored.freelancer_id = res.freelancer_id →
        stored.start_time = stored.end_time →
        (overlapPred res ⟨i, stored⟩ = true ↔
          res.start_time < stored.start_time ∧
            stored.start_time < res.end_time)) := by
  constructor
  · intro _ hno
    obtain ⟨df, hdf, hoid⟩ := hex
    cases hf : find_one s.freelancer (fun d => d.oid == oid) with
    | none =>
      exfalso
      rw [find_one, List.find?_eq_none] at hf
      exact hf df hdf (by simp [hoid])
    | some _ =>
      have ho : find_one s.reservation (overlapPred res) = none := by
        rw [find_one, List.find?_eq_none]
        intro d hd
        simp [hno d hd]
      simp [create_reservation, hid, hf, ho, create_document]
  · intro hfid hdeg
    rw [overlapPred]
    simp only [← hdeg, hfid]
    simp only [Bool.and_eq_true, beq_iff_eq, decide_eq_true_eq, gt_iff_lt]
    constructor
    · rintro ⟨⟨-, h1⟩, h2⟩
      exact ⟨h2, h1⟩
    · rintro ⟨h1, h2⟩
      exact ⟨⟨trivial, h2⟩, h1⟩

/-- Witness for C8 (amended): an inverted reservation `[9, 7)` for the
freelancer of `st1` (whose sole stored reservation `[0,5)` does not match
it) is accepted and inserted, and the empty stored interval `[5,5)` matches
a request `[4,6)` but not one `[5,10)`. -/
theorem degenerate_reservation_behaviour_witness :
    (create_reservation ⟨"B", "b@example.com", fid0, 9, 7, none, .pending⟩
        st1).1 = .ok (idToString 2)
    ∧ (overlapPred resAround ⟨1, resDegenerate⟩ = true ↔
        resAround.start_time < resDegenerate.start_time ∧
          resDegenerate.start_time < resAround.end_time) := by
  constructor
  · exact (degenerate_reservation_behaviour
      ⟨"B", "b@example.com", fid0, 9, 7, none, .pending⟩ resA st1 0 1
      (by decide) ⟨⟨0, flAna⟩, by decide⟩).1 (by decide) (by decide)
  · exact (degenerate_reservation_behaviour resAround resDegenerate st8 0 1
      (by decide) ⟨⟨0, flAna⟩, by decide⟩).2 rfl rfl

/-- The last element of an appended singleton survives a filter-then-take
when the filtered list fits under the cap. -/
lemma mem_take_filter_append {α : Type} (l : List α) (a : α) (p : α → Bool)
    (k : Nat) (hp : p a = true)
    (hlen : ((l ++ [a]).filter p).length ≤ k) :
    a ∈ ((l ++ [a]).filter p).take k := by
  rw [List.take_of_length_le hlen, List.filter_append]
  simp [hp]

/-- A freelancer-type advertisement (not subject to the designers check). -/
def adFree : Advertisement := ⟨.freelancer, "h", "c", [], none, none⟩

/-- A store already holding 50 advertisements (ids 0–49). -/
def adStore50 : Store :=
  ⟨[], [], [], (List.range 50).map (fun i => ⟨i, adFree⟩), [], [], 50⟩

/-- Counterexample to C7 as stated: with 50 advertisements already stored,
a newly created ad (id 50) is accepted but absent from the ad listing —
with no filter and with the matching `ad_type=freelancer` filter alike —
because the listing returns only the first 50 matches. -/
theorem created_entity_listed_c7_counterexample :
    (create_ad adFree adStore50).1 = .ok (idToString 50)
    ∧ ((list_ads none (create_ad adFree adStore50).2).toOption.getD []).all
        (fun d => d.mongoId != idToString 50) = true
    ∧ ((list_ads (some "freelancer")
          (create_ad adFree adStore50).2).toOption.getD []).all
        (fun d => d.mongoId != idToString 50) = true :=
  ⟨rfl, rfl, rfl⟩

/-- C7 (amended).  A successfully created entity is returned by its
resource's list endpoint with its `_id` string equal to the id returned at
creation — unconditionally for the uncapped freelancer/portfolio/reservation
listings, and provided the number of matching documents stays within the
cap for ads (50), threads (50) and posts (200). -/
theorem created_entity_listed (f : Freelancer) (item : PortfolioItem)
    (res : Reservation) (ad : Advertisement) (t : ForumThread)
    (post : ForumPost) (s : Store) :
    (∀ r s', create_freelancer f s = (.ok r, s') →
      ∃ items, list_freelancers none s' = .ok items ∧
        ∃ d ∈ items, d.mongoId = r)
    ∧ (∀ r s', add_portfolio item s = (.ok r, s') →
        ∃ items, list_portfolio none s' = .ok items ∧
          ∃ d ∈ items, d.mongoId = r)
    ∧ (∀ r s', create_reservation res s = (.ok r, s') →
        ∃ items, list_reservations none none s' = .ok items ∧
          ∃ d ∈ items, d.mongoId = r)
    ∧ (∀ r s', create_ad ad s = (.ok r, s') → s.advertisement.length < 50 →
        ∃ items, list_ads none s' = .ok items ∧ ∃ d ∈ items, d.mongoId = r)
    ∧ (∀ r s', create_thread t s = (.ok r, s') → s.forumthread.length < 50 →
        ∃ items, list_threads none s' = .ok items ∧
          ∃ d ∈ items, d.mongoId = r)
    ∧ (∀ r s', create_post post s = (.ok r, s') →
        (s.forumpost.filter
          (fun d => d.data.thread_id == post.thread_id)).length < 200 →
        ∃ items, list_posts post.thread_id s' = .ok items ∧
          ∃ d ∈ items, d.mongoId = r) := by
  refine ⟨?_, ?_, ?_, ?_, ?_, ?_⟩
  · intro r s' h
    simp only [create_freelancer, create_document, Prod.mk.injEq] at h
    obtain ⟨h1, h2⟩ := h
    subst h2
    refine ⟨_, rfl, render ⟨s.nextId, f⟩, ?_, ?_⟩
    · simp only [get_documents, List.mem_map]
      exact ⟨⟨s.nextId, f⟩, List.mem_filter.mpr ⟨by simp, rfl⟩, rfl⟩
    · simp only [render]
      exact (Except.ok.injEq _ _ ▸ h1 : _)
  · intro r s' h
    cases hp : parseObjectId item.freelancer_id with
    | none => simp [add_portfolio, hp] at h
    | some oid =>
      cases hf : find_one s.freelancer (fun d => d.oid == oid) with
      | none => simp [add_portfolio, hp, hf] at h
      | some _ =>
        simp only [add_portfolio, hp, hf, create_document, Prod.mk.injEq] at h
        obtain ⟨h1, h2⟩ := h
        subst h2
        refine ⟨_, rfl, render ⟨s.nextId, item⟩, ?_, ?_⟩
        · simp only [get_documents, List.mem_map]
          exact ⟨⟨s.nextId, item⟩, List.mem_filter.mpr ⟨by simp, rfl⟩, rfl⟩
        · simp only [render]
          exact (Except.ok.injEq _ _ ▸ h1 : _)
  · intro r s' h
    cases hp : parseObjectId res.freelancer_id with
    | none => simp [create_reservation, hp] at h
    | some oid =>
      cases hf : find_one s.freelancer (fun d => d.oid == oid) with
      | none => simp [create_reservation, hp, hf] at h
      | some _ =>
        cases ho : find_one s.reservation (overlapPred res) with
        | some _ => simp [create_reservation, hp, hf, ho] at h
        | none =>
          simp only [create_reservation, hp, hf, ho, create_document,
            Prod.mk.injEq] at h
          obtain ⟨h1, h2⟩ := h
          subst h2
          refine ⟨_, rfl, render ⟨s.nextId, res⟩, ?_, ?_⟩
          · simp only [get_documents, List.mem_map]
            exact ⟨⟨s.nextId, res⟩, List.mem_filter.mpr ⟨by simp, rfl⟩, rfl⟩
          · simp only [render]
            exact (Except.ok.injEq _ _ ▸ h1 : _)
  · intro r s' h hlen
    by_cases h1 : ad.ad_type = AdType.business ∧ ad.designers.isEmpty
    · simp only [create_ad] at h
      rw [if_pos h1] at h
      simp at h
    · by_cases h2 : ad.ad_type = AdType.business ∧
          ¬ (missingDesigners ad).isEmpty
      · simp only [create_ad] at h
        rw [if_neg h1, if_pos h2] at h
        simp at h
      · simp only [create_ad] at h
        rw [if_neg h1, if_neg h2] at h
        simp only [create_document, Prod.mk.injEq] at h
        obtain ⟨h1', h2'⟩ := h
        subst h2'
        refine ⟨_, rfl, render ⟨s.nextId, ad⟩, ?_, ?_⟩
        · simp only [get_documents, List.mem_map]
          refine ⟨⟨s.nextId, ad⟩, ?_, rfl⟩
          apply mem_take_filter_append _ _ _ _ rfl
          have hall : adFilter none = (fun _ => true) := rfl
          rw [hall, List.filter_true]
          simp only [List.length_append, List.length_cons, List.length_nil]
          omega
        · simp only [render]
          exact (Except.ok.injEq _ _ ▸ h1' : _)
  · intro r s' h hlen
    simp only [create_thread, create_document, Prod.mk.injEq] at h
    obtain ⟨h1, h2⟩ := h
    subst h2
    refine ⟨_, rfl, render ⟨s.nextId, t⟩, ?_, ?_⟩
    · simp only [get_documents, List.mem_map]
      refine ⟨⟨s.nextId, t⟩, ?_, rfl⟩
      apply mem_take_filter_append _ _ _ _ rfl
      have hall : tagFilter none = (fun _ => true) := rfl
      rw [hall, List.filter_true]
      simp only [List.length_append, List.length_cons, List.length_nil]
      omega
    · simp only [render]
      exact (Except.ok.injEq _ _ ▸ h1 : _)
  · intro r s' h hlen
    cases hp : parseObjectId post.thread_id with
    | none => simp [create_post, hp] at h
    | some oid =>
      cases hf : find_one s.forumthread (fun d => d.oid == oid) with
      | none => simp [create_post, hp, hf] at h
      | some _ =>
        simp only [create_post, hp, hf, create_document, Prod.mk.injEq] at h
        obtain ⟨h1, h2⟩ := h
        subst h2
        refine ⟨_, rfl, render ⟨s.nextId, post⟩, ?_, ?_⟩
        · simp only [list_posts, get_documents, List.mem_map]
          refine ⟨⟨s.nextId, post⟩, ?_, rfl⟩
          apply mem_take_filter_append _ _ _ _ (by simp)
          rw [List.filter_append]
          simp only [List.filter, beq_self_eq_true, List.length_append]
          simp only [List.length_filter_le, List.length_cons, List.length_nil]
          omega
        · simp only [render]
          exact (Except.ok.injEq _ _ ▸ h1 : _)

/-- Witness for C7 (amended): against the empty store, a created freelancer
and a created ad each appear in their listings with the returned id. -/
theorem created_entity_listed_witness :
    (∃ items, list_freelancers none (create_freelancer flAna Store.empty).2 =
        .ok items ∧ ∃ d ∈ items, d.mongoId = idToString 0)
    ∧ (∃ items, list_ads none (create_ad adFree Store.empty).2 = .ok items ∧
        ∃ d ∈ items, d.mongoId = idToString 0) := by
  constructor
  · exact (created_entity_listed flAna itemGood resB adFree
      ⟨"t", "c", .guest, "a", []⟩ postAbsent Store.empty).1
      (idToString 0) _ rfl
  · exact (created_entity_listed flAna itemGood resB adFree
      ⟨"t", "c", .guest, "a", []⟩ postAbsent Store.empty).2.2.2.1
      (idToString 0) _ rfl (by decide)

end Booking
